import Mathlib

/-
Verification of the RDOK dashboard forms client and web layer
(`acc_forms_client.py`, `app.py`).

The embedding models JSON-decoded Python values as the inductive type
`PyVal` (dicts are association lists with unique keys, the invariant Python
dicts provide).  HTTP request outcomes are modelled by `ReqOutcome`: either
a raised transport or parse exception, or a response with a status code and
an already-decoded JSON body.  Stateful methods become explicit state
passing; the paginating fetcher consumes an explicit list of page outcomes.
-/

/-- Python value as produced by json decoding: None, bool, int, str,
list, or dict (association list of string keys to values). -/
inductive PyVal : Type where
  | none : PyVal
  | bool : Bool → PyVal
  | num : Int → PyVal
  | str : String → PyVal
  | list : List PyVal → PyVal
  | dict : List (String × PyVal) → PyVal

/-- Python truthiness: None, False, 0, empty string, empty list and empty
dict are falsy; everything else is truthy. -/
def truthy : PyVal → Bool
  | PyVal.none => false
  | PyVal.bool b => b
  | PyVal.num n => n != 0
  | PyVal.str s => !s.isEmpty
  | PyVal.list xs => !xs.isEmpty
  | PyVal.dict es => !es.isEmpty

/-- isinstance(v, dict). -/
def PyVal.isDict : PyVal → Bool
  | PyVal.dict _ => true
  | _ => false

/-- isinstance(v, list). -/
def PyVal.isList : PyVal → Bool
  | PyVal.list _ => true
  | _ => false

/-- First binding of a key in an association list, as Python dict lookup
(keys are unique in a real Python dict, so first match is the match). -/
def lookupEntry : List (String × PyVal) → String → Option PyVal
  | [], _ => Option.none
  | e :: rest, k => if e.1 = k then some e.2 else lookupEntry rest k

/-- Python `d.get(k, default)`.  The model only applies it to dicts; on a
non-dict the Python attribute error cannot occur in the guarded call sites
embedded here, and the default is returned. -/
def pyGetD (v : PyVal) (k : String) (dflt : PyVal) : PyVal :=
  match v with
  | PyVal.dict es => (lookupEntry es k).getD dflt
  | _ => dflt

/-- Python subscript `v[k]` for a string key: `some` value when `v` is a
dict containing `k`, otherwise `Option.none` standing for the raised
KeyError or TypeError. -/
def pyIndex (v : PyVal) (k : String) : Option PyVal :=
  match v with
  | PyVal.dict es => lookupEntry es k
  | _ => Option.none

/-- Python dict assignment `d[k] = x`: replace the first binding of `k`,
or append a new binding.  On a non-dict (never reached at the embedded
call sites, which are guarded by isinstance checks) the value is
returned unchanged. -/
def setEntry : List (String × PyVal) → String → PyVal → List (String × PyVal)
  | [], k, x => [(k, x)]
  | e :: rest, k, x => if e.1 = k then (k, x) :: rest else e :: setEntry rest k x

def pySet (v : PyVal) (k : String) (x : PyVal) : PyVal :=
  match v with
  | PyVal.dict es => PyVal.dict (setEntry es k x)
  | _ => v

mutual
/-- Python `==` on decoded JSON values: None equals None, booleans compare
with numbers through the numeric coercion True == 1 and False == 0, strings
and numbers compare by value, lists compare elementwise.  Dict equality is
modelled as ordered entry equality; Python compares dicts unordered, but
the only `==` in the source (template id lookup) compares string
identifiers or None, never dicts. -/
def pyEq : PyVal → PyVal → Bool
  | PyVal.none, PyVal.none => true
  | PyVal.bool a, PyVal.bool b => a == b
  | PyVal.bool a, PyVal.num n => (if a then (1 : Int) else 0) == n
  | PyVal.num n, PyVal.bool b => n == (if b then (1 : Int) else 0)
  | PyVal.num a, PyVal.num b => a == b
  | PyVal.str a, PyVal.str b => a == b
  | PyVal.list a, PyVal.list b => pyEqList a b
  | PyVal.dict a, PyVal.dict b => pyEqEntries a b
  | _, _ => false

def pyEqList : List PyVal → List PyVal → Bool
  | [], [] => true
  | a :: as, b :: bs => pyEq a b && pyEqList as bs
  | _, _ => false

def pyEqEntries : List (String × PyVal) → List (String × PyVal) → Bool
  | [], [] => true
  | a :: as, b :: bs => a.1 == b.1 && pyEq a.2 b.2 && pyEqEntries as bs
  | _, _ => false
end

/-- Outcome of one `requests` call: a raised exception (transport failure
or an unparseable json body), or a response carrying an HTTP status code
and its decoded json body. -/
inductive ReqOutcome : Type where
  | exc : ReqOutcome
  | resp : Nat → PyVal → ReqOutcome

/-- get_form_templates (acc_forms_client.py lines 206-243).  The network
call is abstracted into its outcome.  An exception (transport failure or
json decode failure) and an HTTP error status from raise_for_status both
land in an except clause returning the empty list; a list body is returned
as is; a dict body is unwrapped through
`response_data.get("results", response_data.get("data", [response_data]))`
and, when that is not a list, wrapped as a singleton if truthy; any other
body shape returns the empty list. -/
def get_form_templates : ReqOutcome → List PyVal
  | ReqOutcome.exc => []
  | ReqOutcome.resp s body =>
    if 400 ≤ s ∧ s < 600 then []
    else
      match body with
      | PyVal.list xs => xs
      | PyVal.dict es =>
        match pyGetD (PyVal.dict es) "results"
            (pyGetD (PyVal.dict es) "data" (PyVal.list [PyVal.dict es])) with
        | PyVal.list xs => xs
        | v => if truthy v then [v] else []
      | _ => []

/-- Shared body handling of the two forms endpoints (acc_forms_client.py
lines 279-288 and 335-344, textually identical in the source): a list body
is the form list; a dict body is unwrapped through
`response_data.get("results", response_data.get("data", []))` and, when
that is not a list, replaced by `[response_data] if response_data else []`;
any other body shape is `Option.none`, the "unexpected format" branch. -/
def parseFormsResponse : PyVal → Option (List PyVal)
  | PyVal.list xs => some xs
  | PyVal.dict es =>
    match pyGetD (PyVal.dict es) "results" (pyGetD (PyVal.dict es) "data" (PyVal.list [])) with
    | PyVal.list xs => some xs
    | _ => some (if truthy (PyVal.dict es) then [PyVal.dict es] else [])
  | _ => Option.none

/-- try_alternative_forms_endpoint (acc_forms_client.py lines 312-354):
single request; 404 is treated as "no forms"; an HTTP error status
(raise_for_status) or an exception returns the empty list; otherwise the
body is parsed with the shared forms body handling, an unexpected shape
returning the empty list. -/
def try_alternative_forms_endpoint : ReqOutcome → List PyVal
  | ReqOutcome.exc => []
  | ReqOutcome.resp s body =>
    if s = 404 then []
    else if 400 ≤ s ∧ s < 600 then []
    else
      match parseFormsResponse body with
      | some xs => xs
      | Option.none => []

/-- get_forms_for_template (acc_forms_client.py lines 245-310).  The loop
requests pages at offsets 0, 200, 400, ...; the argument lists the outcome
of each successive page request.  The result is
`some (all accumulated forms, number of requests made)` when the loop
terminates within the supplied pages: it breaks with the accumulation on a
404, on an HTTP error status, on an exception, on an unexpected body
shape, on an empty page (before extending), and after extending on a page
shorter than the page size 200.  `Option.none` means the loop would
request more pages than were supplied (every supplied page was full). -/
def get_forms_for_template : List ReqOutcome → Option (List PyVal × Nat)
  | [] => Option.none
  | p :: rest =>
    match p with
    | ReqOutcome.exc => some ([], 1)
    | ReqOutcome.resp s body =>
      if s = 404 then some ([], 1)
      else if 400 ≤ s ∧ s < 600 then some ([], 1)
      else
        match parseFormsResponse body with
        | Option.none => some ([], 1)
        | some forms =>
          if forms.isEmpty then some ([], 1)
          else if forms.length < 200 then some (forms, 1)
          else
            match get_forms_for_template rest with
            | Option.none => Option.none
            | some r => some (forms ++ r.1, r.2 + 1)

/-- A successful page response whose body is the bare list `l`. -/
def okPage (l : List PyVal) : ReqOutcome :=
  ReqOutcome.resp 200 (PyVal.list l)

/-- Template-metadata stamping of the per-template path
(acc_forms_client.py lines 384-390): each dict form gets
`template_name = template.get("name", "Unnamed Template")`,
`template_type = template.get("templateType", "unknown")` and
`template_id = template.get("id")`; non-dict elements pass unchanged. -/
def stampForm (template : PyVal) (form : PyVal) : PyVal :=
  if form.isDict then
    pySet (pySet (pySet form
      "template_name" (pyGetD template "name" (PyVal.str "Unnamed Template")))
      "template_type" (pyGetD template "templateType" (PyVal.str "unknown")))
      "template_id" (pyGetD template "id" PyVal.none)
  else form

/-- One iteration of the per-template loop of get_all_forms
(acc_forms_client.py lines 371-395): skip a non-dict template, skip a
template whose id is falsy, otherwise fetch its forms (abstracted as the
function `fetch` from the template id to the returned list) and stamp the
template metadata onto each dict form.  `fetch` stands for the value the
inner `get_forms_for_template` call returns; that call swallows its own
errors, and the surrounding try/except never fires in the model. -/
def processTemplate (fetch : PyVal → List PyVal) (template : PyVal) : List PyVal :=
  if template.isDict = false then []
  else if truthy (pyGetD template "id" PyVal.none) = false then []
  else (fetch (pyGetD template "id" PyVal.none)).map (stampForm template)

/-- The forms accumulated by Method 1 of get_all_forms across all
templates (acc_forms_client.py lines 368-395). -/
def perTemplateForms (templates : List PyVal) (fetch : PyVal → List PyVal) : List PyVal :=
  (templates.map (processTemplate fetch)).flatten

/-- The nested template identifier of a form as read by the alternative
path (acc_forms_client.py line 404):
`form.get("formTemplate", {}).get("id") if isinstance(form.get("formTemplate"), dict) else None`. -/
def altFormTemplateId (form : PyVal) : PyVal :=
  if (pyGetD form "formTemplate" PyVal.none).isDict then
    pyGetD (pyGetD form "formTemplate" (PyVal.dict [])) "id" PyVal.none
  else PyVal.none

/-- The template-matching test of the alternative path
(acc_forms_client.py lines 408-409): a dict template whose id compares
Python-equal to the nested identifier of the form. -/
def altMatch (form : PyVal) (template : PyVal) : Bool :=
  template.isDict && pyEq (pyGetD template "id" PyVal.none) (altFormTemplateId form)

/-- Template-metadata stamping of the alternative path
(acc_forms_client.py lines 402-420): for a dict form, look the nested
template identifier up in the fetched template list (first match wins);
on a match stamp the name/type/id of that template with the defaults of the
source, otherwise stamp the placeholders "Unknown Template" / "unknown"
and the (possibly None) nested identifier. -/
def altStampForm (templates : List PyVal) (form : PyVal) : PyVal :=
  if form.isDict = false then form
  else
    match templates.find? (altMatch form) with
    | some ti =>
      pySet (pySet (pySet form
        "template_name" (pyGetD ti "name" (PyVal.str "Unknown Template")))
        "template_type" (pyGetD ti "templateType" (PyVal.str "unknown")))
        "template_id" (pyGetD ti "id" PyVal.none)
    | Option.none =>
      pySet (pySet (pySet form
        "template_name" (PyVal.str "Unknown Template"))
        "template_type" (PyVal.str "unknown"))
        "template_id" (altFormTemplateId form)

/-- get_all_forms (acc_forms_client.py lines 356-425), abstracted over the
already-fetched template list, the per-template fetch results, and the
list the alternative endpoint would return.  The second component records
whether try_alternative_forms_endpoint was invoked.  With an empty
template list the function returns early (line 364-366) without invoking
the alternative endpoint; otherwise Method 1 accumulates the stamped
per-template forms, and only when that accumulation is empty does Method 2
call the alternative endpoint and stamp its forms by template lookup. -/
def get_all_forms (templates : List PyVal) (fetch : PyVal → List PyVal)
    (alt : List PyVal) : List PyVal × Bool :=
  if templates.isEmpty then ([], false)
  else
    let all_forms := perTemplateForms templates fetch
    if all_forms.isEmpty then (alt.map (altStampForm templates), true)
    else (all_forms, false)

/-- Token state of AutodeskAuthenticator (acc_forms_client.py lines
30-34): both fields start as Python None. -/
structure AuthState : Type where
  access_token : PyVal
  refresh_token : PyVal

/-- authenticate_client_credentials (acc_forms_client.py lines 43-80):
on a 200 response whose body is a dict containing "access_token", store
that token and return True; on a 200 body without it the subscript
`token_data["access_token"]` raises, the except clause returns False and
the state is unchanged; any other status logs and returns False; an
exception (transport failure or json decode failure) returns False. -/
def authenticate_client_credentials (st : AuthState) (o : ReqOutcome) :
    Bool × AuthState :=
  match o with
  | ReqOutcome.exc => (false, st)
  | ReqOutcome.resp s body =>
    if s = 200 then
      match pyIndex body "access_token" with
      | some tok => (true, ⟨tok, st.refresh_token⟩)
      | Option.none => (false, st)
    else (false, st)

/-- exchange_code_for_token (acc_forms_client.py lines 158-196): on a 200
response whose body is a dict containing "access_token", store it together
with `token_data.get("refresh_token")` (Python None when absent) and
return True; otherwise behave exactly as the client-credentials flow. -/
def exchange_code_for_token (st : AuthState) (o : ReqOutcome) :
    Bool × AuthState :=
  match o with
  | ReqOutcome.exc => (false, st)
  | ReqOutcome.resp s body =>
    if s = 200 then
      match pyIndex body "access_token" with
      | some tok => (true, ⟨tok, pyGetD body "refresh_token" PyVal.none⟩)
      | Option.none => (false, st)
    else (false, st)

/-- The process-wide mutable state of app.py (lines 46-49) that
load_forms_data_background touches. -/
structure AppState : Type where
  forms_data : List PyVal
  last_update : Option Nat
  is_loading : Bool
  error_message : Option String

/-- load_forms_data_background (app.py lines 181-219).  Inputs abstract
the ambient effects: `auth` is the global authenticator (Option.none when
unset), `projectEnv` the AUTODESK_PROJECT_IDS environment string, `fetch`
the result of `get_all_forms` on the chosen project id (`Except.error`
standing for any exception raised inside the try block), `now` the
timestamp taken on success.  Every exit path of the source sets
is_loading to False. -/
def load_forms_data_background (auth : Option AuthState) (projectEnv : String)
    (fetch : String → Except String (List PyVal)) (now : Nat)
    (st : AppState) : AppState :=
  match auth with
  | Option.none =>
    ⟨st.forms_data, st.last_update, false, some "No valid authentication token"⟩
  | some a =>
    if truthy a.access_token = false then
      ⟨st.forms_data, st.last_update, false, some "No valid authentication token"⟩
    else
      let project_ids := projectEnv.splitOn ","
      if (project_ids.headD "").isEmpty then
        ⟨st.forms_data, st.last_update, false, some "No project ID configured"⟩
      else
        let project_id := (project_ids.headD "").trim
        match fetch project_id with
        | Except.error e =>
          ⟨st.forms_data, st.last_update, false, some e⟩
        | Except.ok forms =>
          if forms.isEmpty then
            ⟨[], st.last_update, false, some "No forms found in project"⟩
          else
            ⟨forms, some now, false, Option.none⟩

/-- A custom field dict can abort the export (app.py line 358): the test
`if value_name and value_name in field` first checks the truthiness of
`value_name = field.get("valueName", "textVal")` and, when it is truthy,
evaluates the membership `value_name in field`, which hashes value_name
and raises TypeError when value_name is unhashable, i.e. a list or a
dict (an empty one is falsy and short-circuits before the membership
test).  Any other shape of valueName is hashable or falsy and the row is
written normally.  Non-dict field elements are skipped by the isinstance
guard before this point. -/
def fieldAborts : PyVal → Bool
  | PyVal.dict es =>
    match (lookupEntry es "valueName").getD (PyVal.str "textVal") with
    | PyVal.list l => !l.isEmpty
    | PyVal.dict d => !d.isEmpty
    | _ => false
  | _ => false

/-- Rows the csv writer emits for the customValues of one form
(app.py lines 350-381): when the value is a list, one row per dict
element (non-dict elements are skipped by the isinstance guard), unless
some field dict raises TypeError in the `value_name in field` test of
app.py line 358, which the except clause at app.py line 422 turns into
an aborted export (`Option.none`); a falsy non-list value fails the
`if custom_values` guard and emits nothing; a truthy string or dict
would be iterated by the for loop, yielding characters or keys, none of
which are dicts, so nothing is emitted; a truthy number or boolean is
not iterable, so the for loop raises and the export aborts. -/
def customValueRows : PyVal → Option Nat
  | PyVal.list fs =>
    if fs.any fieldAborts then Option.none
    else some ((fs.filter (fun f => f.isDict)).length)
  | PyVal.str _ => some 0
  | PyVal.dict _ => some 0
  | PyVal.none => some 0
  | PyVal.num n => if n = 0 then some 0 else Option.none
  | PyVal.bool b => if b then Option.none else some 0

/-- Rows emitted for one row of a table (app.py lines 388-401): one per
key of a dict row, zero for a non-dict row skipped by its isinstance
guard. -/
def cellCount : PyVal → Nat
  | PyVal.dict es => es.length
  | _ => 0

/-- Rows emitted for one table of tabularValues (app.py lines 386-401):
the guard `if table_data and isinstance(table_data, list)` skips falsy or
non-list tables; otherwise the cell counts of its rows are summed. -/
def tableRows : PyVal → Nat
  | PyVal.list rows =>
    if rows.isEmpty then 0 else (rows.map cellCount).sum
  | _ => 0

/-- Rows emitted for the tabularValues of one form (app.py lines
384-401): a falsy value fails the `if tabular_values` guard and emits
nothing; a dict is iterated with `.items()`, summing the rows of each
table; `.items()` on a truthy non-dict raises, aborting the export. -/
def tabularValueRows : PyVal → Option Nat
  | PyVal.dict tables => some ((tables.map (fun e => tableRows e.2)).sum)
  | v => if truthy v then Option.none else some 0

/-- Data rows the csv export writes for one form (app.py lines 335-401):
the custom-value rows plus the tabular-cell rows; no row is written for
the form itself.  A non-dict form makes `form.get` raise, aborting the
export. -/
def formRows (form : PyVal) : Option Nat :=
  if form.isDict = false then Option.none
  else
    match customValueRows (pyGetD form "customValues" (PyVal.list [])) with
    | Option.none => Option.none
    | some c =>
      match tabularValueRows (pyGetD form "tabularValues" (PyVal.dict [])) with
      | Option.none => Option.none
      | some t => some (c + t)

/-- Data rows the whole csv export writes (app.py lines 335-401), not
counting the single header row: the sum over the loaded forms, aborted
(`Option.none`) as soon as one form raises. -/
def export_csv_rows : List PyVal → Option Nat
  | [] => some 0
  | f :: rest =>
    match formRows f with
    | Option.none => Option.none
    | some a =>
      match export_csv_rows rest with
      | Option.none => Option.none
      | some b => some (a + b)

/-- A form whose customValues are the field dicts `cvs` and whose
tabularValues are the named tables of `tables`, each table a list of
dict rows.  This is the well-formed shape the API returns and the csv
export flattens. -/
def mkForm (cvs : List (List (String × PyVal)))
    (tables : List (String × List (List (String × PyVal)))) : PyVal :=
  PyVal.dict
    [("customValues", PyVal.list (cvs.map PyVal.dict)),
     ("tabularValues", PyVal.dict
       (tables.map (fun t => (t.1, PyVal.list (t.2.map PyVal.dict)))))]

theorem lookup_setEntry_self (es : List (String × PyVal)) (k : String) (x : PyVal) :
    lookupEntry (setEntry es k x) k = some x := by
  induction es with
  | nil => simp [setEntry, lookupEntry]
  | cons e rest ih =>
    by_cases he : e.1 = k
    · simp [setEntry, he, lookupEntry]
    · simp [setEntry, he, lookupEntry, ih]

theorem lookup_setEntry_ne (es : List (String × PyVal)) (k k' : String)
    (x : PyVal) (h : k' ≠ k) :
    lookupEntry (setEntry es k x) k' = lookupEntry es k' := by
  induction es with
  | nil => simp [setEntry, lookupEntry, Ne.symm h]
  | cons e rest ih =>
    by_cases he : e.1 = k
    · have h2 : e.1 ≠ k' := by rw [he]; exact Ne.symm h
      simp [setEntry, he, lookupEntry, Ne.symm h, h2]
    · simp [setEntry, he, lookupEntry, ih]

/-- Reading back the three keys the stamping code writes. -/
theorem lookup_stamp (es : List (String × PyVal)) (v1 v2 v3 : PyVal) :
    pyGetD (PyVal.dict (setEntry (setEntry (setEntry es
        "template_name" v1) "template_type" v2) "template_id" v3))
        "template_name" PyVal.none = v1
    ∧ pyGetD (PyVal.dict (setEntry (setEntry (setEntry es
        "template_name" v1) "template_type" v2) "template_id" v3))
        "template_type" PyVal.none = v2
    ∧ pyGetD (PyVal.dict (setEntry (setEntry (setEntry es
        "template_name" v1) "template_type" v2) "template_id" v3))
        "template_id" PyVal.none = v3 := by
  have h1 : ("template_name" : String) ≠ "template_id" := by decide
  have h2 : ("template_name" : String) ≠ "template_type" := by decide
  have h3 : ("template_type" : String) ≠ "template_id" := by decide
  refine ⟨?_, ?_, ?_⟩
  · simp [pyGetD, lookup_setEntry_ne _ _ _ _ h1,
      lookup_setEntry_ne _ _ _ _ h2, lookup_setEntry_self]
  · simp [pyGetD, lookup_setEntry_ne _ _ _ _ h3, lookup_setEntry_self]
  · simp [pyGetD, lookup_setEntry_self]

/-- Claim C10: every exit path of load_forms_data_background (missing
token, missing project id, successful fetch, empty fetch, and a raised
exception) leaves is_loading at False, so is_loading never remains True
after a background fetch cycle has ended. -/
theorem claim_C10 (auth : Option AuthState) (projectEnv : String)
    (fetch : String → Except String (List PyVal)) (now : Nat) (st : AppState) :
    (load_forms_data_background auth projectEnv fetch now st).is_loading = false := by
  unfold load_forms_data_background
  cases auth with
  | none => rfl
  | some a =>
    dsimp only
    split
    · rfl
    · split
      · rfl
      · split
        · rfl
        · split
          · rfl
          · rfl

/-- Claim C4: for every list of elements xs, the templates parser, the
per-template forms page parser, and the alternative-endpoint parser all
yield exactly xs on each of the three tolerated response shapes: the bare
list xs, a dict wrapping xs under "results", and a dict wrapping xs
under "data". -/
theorem claim_C4 (xs : List PyVal) :
    (get_form_templates (ReqOutcome.resp 200 (PyVal.list xs)) = xs
      ∧ parseFormsResponse (PyVal.list xs) = some xs
      ∧ try_alternative_forms_endpoint (ReqOutcome.resp 200 (PyVal.list xs)) = xs)
    ∧ (get_form_templates (ReqOutcome.resp 200
          (PyVal.dict [("results", PyVal.list xs)])) = xs
      ∧ parseFormsResponse (PyVal.dict [("results", PyVal.list xs)]) = some xs
      ∧ try_alternative_forms_endpoint (ReqOutcome.resp 200
          (PyVal.dict [("results", PyVal.list xs)])) = xs)
    ∧ (get_form_templates (ReqOutcome.resp 200
          (PyVal.dict [("data", PyVal.list xs)])) = xs
      ∧ parseFormsResponse (PyVal.dict [("data", PyVal.list xs)]) = some xs
      ∧ try_alternative_forms_endpoint (ReqOutcome.resp 200
          (PyVal.dict [("data", PyVal.list xs)])) = xs) :=
  ⟨⟨rfl, rfl, rfl⟩, ⟨rfl, rfl, rfl⟩, ⟨rfl, rfl, rfl⟩⟩

/-- Claim C9: when a dict response body carries both a "results" key and
a "data" key (in either order), all three parsers return the list under
"results" and the value under "data" has no influence. -/
theorem claim_C9 (xs : List PyVal) (w : PyVal) :
    (get_form_templates (ReqOutcome.resp 200
        (PyVal.dict [("results", PyVal.list xs), ("data", w)])) = xs
      ∧ parseFormsResponse (PyVal.dict [("results", PyVal.list xs), ("data", w)]) = some xs
      ∧ try_alternative_forms_endpoint (ReqOutcome.resp 200
        (PyVal.dict [("results", PyVal.list xs), ("data", w)])) = xs)
    ∧ (get_form_templates (ReqOutcome.resp 200
        (PyVal.dict [("data", w), ("results", PyVal.list xs)])) = xs
      ∧ parseFormsResponse (PyVal.dict [("data", w), ("results", PyVal.list xs)]) = some xs
      ∧ try_alternative_forms_endpoint (ReqOutcome.resp 200
        (PyVal.dict [("data", w), ("results", PyVal.list xs)])) = xs) :=
  ⟨⟨rfl, rfl, rfl⟩, ⟨rfl, rfl, rfl⟩⟩

/-- Claim C1 fails as stated: with an empty template list the union of
forms across all fetched templates is empty, yet get_all_forms returns
early (acc_forms_client.py lines 364-366) and never invokes
try_alternative_forms_endpoint. -/
theorem claim_C1_counterexample :
    perTemplateForms [] (fun _ => []) = []
    ∧ (get_all_forms [] (fun _ => []) [PyVal.dict []]).2 = false :=
  ⟨rfl, rfl⟩

/-- Claim C1 as amended: get_all_forms invokes the alternative endpoint
exactly when the fetched template list is nonempty and the per-template
path yields zero total forms; with an empty template list it returns
early without the fallback. -/
theorem claim_C1 (templates : List PyVal) (fetch : PyVal → List PyVal)
    (alt : List PyVal) :
    (get_all_forms templates fetch alt).2 =
      (!templates.isEmpty && (perTemplateForms templates fetch).isEmpty) := by
  unfold get_all_forms
  cases h : templates.isEmpty with
  | true => simp [h]
  | false =>
    cases h2 : (perTemplateForms templates fetch).isEmpty with
    | true => simp [h, h2]
    | false => simp [h, h2]

/-- A full page (at least the page size 200) never ends the pagination
loop: its forms are prepended and the loop continues with the next
page. -/
theorem get_forms_cons_full (l : List PyVal) (h : 200 ≤ l.length)
    (ps : List ReqOutcome) :
    get_forms_for_template (okPage l :: ps) =
      (get_forms_for_template ps).map (fun r => (l ++ r.1, r.2 + 1)) := by
  have hne : l.isEmpty = false := by
    cases l with
    | nil => simp at h
    | cons a t => rfl
  have hlt : ¬ l.length < 200 := Nat.not_lt.mpr h
  simp only [get_forms_for_template, okPage, parseFormsResponse]
  norm_num [hne, hlt]
  cases get_forms_for_template ps with
  | none => rfl
  | some r => rfl

/-- Claim C2: over error-free page responses the pagination of
get_forms_for_template stops exactly at the first page that is shorter
than the page size 200 (the empty page included) or that returns 404,
having made one request per page seen, and returns the concatenation of
all pages received; as long as every page is full it keeps
requesting. -/
theorem claim_C2 (fulls : List (List PyVal))
    (h : ∀ l ∈ fulls, 200 ≤ l.length) :
    (∀ short : List PyVal, short.length < 200 →
        get_forms_for_template (fulls.map okPage ++ [okPage short]) =
          some (fulls.flatten ++ short, fulls.length + 1))
    ∧ get_forms_for_template
        (fulls.map okPage ++ [ReqOutcome.resp 404 (PyVal.list [])]) =
        some (fulls.flatten, fulls.length + 1)
    ∧ get_forms_for_template (fulls.map okPage) = Option.none := by
  induction fulls with
  | nil =>
    refine ⟨?_, rfl, rfl⟩
    intro short hs
    cases hE : short.isEmpty
    case true =>
      have h0 : short = [] := List.isEmpty_iff.mp hE
      subst h0
      rfl
    case false =>
      simp only [List.map_nil, List.nil_append, List.flatten_nil,
        List.length_nil, get_forms_for_template, okPage, parseFormsResponse]
      norm_num [hE, hs]
  | cons l rest ih =>
    have hl : 200 ≤ l.length := h l (List.mem_cons_self l rest)
    obtain ⟨ih1, ih2, ih3⟩ := ih (fun x hx => h x (List.mem_cons_of_mem _ hx))
    refine ⟨?_, ?_, ?_⟩
    · intro short hs
      rw [List.map_cons, List.cons_append, get_forms_cons_full l hl,
        ih1 short hs]
      simp [List.append_assoc]
    · rw [List.map_cons, List.cons_append, get_forms_cons_full l hl, ih2]
      simp
    · rw [List.map_cons, get_forms_cons_full l hl, ih3]
      rfl

/-- Witness for claim C2: the synthetic pages of sizes [200, 200, 150]
make exactly 3 requests and return 550 merged forms, and a first page
returning 404 makes exactly 1 request and returns the empty list. -/
theorem claim_C2_witness :
    get_forms_for_template
        ([List.replicate 200 PyVal.none, List.replicate 200 PyVal.none].map okPage
          ++ [okPage (List.replicate 150 PyVal.none)]) =
      some ([List.replicate 200 PyVal.none, List.replicate 200 PyVal.none].flatten
          ++ List.replicate 150 PyVal.none,
        [List.replicate 200 PyVal.none, List.replicate 200 PyVal.none].length + 1)
    ∧ ([List.replicate 200 PyVal.none, List.replicate 200 PyVal.none].flatten
          ++ List.replicate 150 PyVal.none).length = 550
    ∧ [List.replicate 200 PyVal.none, List.replicate 200 PyVal.none].length + 1 = 3
    ∧ get_forms_for_template (([] : List (List PyVal)).map okPage
          ++ [ReqOutcome.resp 404 (PyVal.list [])]) =
        some (([] : List (List PyVal)).flatten,
          ([] : List (List PyVal)).length + 1)
    ∧ ([] : List (List PyVal)).length + 1 = 1 := by
  refine ⟨(claim_C2 _ ?_).1 _ ?_, ?_, rfl, (claim_C2 [] ?_).2.1, rfl⟩
  · intro l hl
    simp only [List.mem_cons, List.not_mem_nil, or_false] at hl
    rcases hl with rfl | rfl <;> simp only [List.length_replicate, le_refl]
  · simp only [List.length_replicate]
    norm_num
  · simp only [List.flatten_cons, List.flatten_nil, List.append_nil,
      List.length_append, List.length_replicate]
  · intro l hl
    simp at hl

/-- Claim C6: when a transport or parse exception, or an HTTP error
status, occurs at any point of the pagination, get_forms_for_template
returns the forms accumulated from all pages fetched successfully before
the error, neither discarding them nor raising. -/
theorem claim_C6 (fulls : List (List PyVal))
    (h : ∀ l ∈ fulls, 200 ≤ l.length) (rest : List ReqOutcome) :
    get_forms_for_template (fulls.map okPage ++ ReqOutcome.exc :: rest) =
      some (fulls.flatten, fulls.length + 1)
    ∧ ∀ s body, 400 ≤ s → s < 600 →
        get_forms_for_template
            (fulls.map okPage ++ ReqOutcome.resp s body :: rest) =
          some (fulls.flatten, fulls.length + 1) := by
  induction fulls with
  | nil =>
    refine ⟨rfl, ?_⟩
    intro s body h4 h6
    by_cases h404 : s = 404
    · simp [get_forms_for_template, h404]
    · simp [get_forms_for_template, h404, h4, h6]
  | cons l rst ih =>
    have hl : 200 ≤ l.length := h l (List.mem_cons_self l rst)
    obtain ⟨ih1, ih2⟩ := ih (fun x hx => h x (List.mem_cons_of_mem _ hx))
    refine ⟨?_, ?_⟩
    · rw [List.map_cons, List.cons_append, get_forms_cons_full l hl, ih1]
      simp
    · intro s body h4 h6
      rw [List.map_cons, List.cons_append, get_forms_cons_full l hl,
        ih2 s body h4 h6]
      simp

/-- Witness for claim C6: after one full page, an exception and a 500
response each truncate the result at that one page with two requests
made. -/
theorem claim_C6_witness :
    get_forms_for_template
        ([List.replicate 200 PyVal.none].map okPage ++ ReqOutcome.exc :: []) =
      some ([List.replicate 200 PyVal.none].flatten,
        [List.replicate 200 PyVal.none].length + 1)
    ∧ get_forms_for_template
        ([List.replicate 200 PyVal.none].map okPage
          ++ ReqOutcome.resp 500 PyVal.none :: []) =
      some ([List.replicate 200 PyVal.none].flatten,
        [List.replicate 200 PyVal.none].length + 1) := by
  have h : ∀ l ∈ [List.replicate 200 PyVal.none], 200 ≤ l.length := by
    intro l hl
    simp only [List.mem_singleton] at hl
    subst hl
    simp only [List.length_replicate, le_refl]
  exact ⟨(claim_C6 _ h []).1,
    (claim_C6 _ h []).2 500 PyVal.none (by norm_num) (by norm_num)⟩

/-- Claim C7: on every error outcome of the underlying request (transport
or parse exception, HTTP error status, unexpected body shape),
get_form_templates and try_alternative_forms_endpoint return the empty
list, being total they never raise to the caller; and
try_alternative_forms_endpoint returns the empty list on a 404 response,
treating it as empty rather than as an error. -/
theorem claim_C7 :
    (get_form_templates ReqOutcome.exc = []
      ∧ try_alternative_forms_endpoint ReqOutcome.exc = [])
    ∧ (∀ s body, 400 ≤ s → s < 600 →
        get_form_templates (ReqOutcome.resp s body) = []
        ∧ try_alternative_forms_endpoint (ReqOutcome.resp s body) = [])
    ∧ (∀ s body, body.isList = false → body.isDict = false →
        get_form_templates (ReqOutcome.resp s body) = []
        ∧ try_alternative_forms_endpoint (ReqOutcome.resp s body) = [])
    ∧ (∀ body, try_alternative_forms_endpoint (ReqOutcome.resp 404 body) = []) := by
  refine ⟨⟨rfl, rfl⟩, ?_, ?_, ?_⟩
  · intro s body h4 h6
    constructor
    · simp [get_form_templates, h4, h6]
    · by_cases h404 : s = 404
      · simp [try_alternative_forms_endpoint, h404]
      · simp [try_alternative_forms_endpoint, h404, h4, h6]
  · intro s body hl hd
    constructor
    · cases body <;>
        simp_all [get_form_templates, PyVal.isList, PyVal.isDict]
    · cases body <;>
        simp_all [try_alternative_forms_endpoint, parseFormsResponse,
          PyVal.isList, PyVal.isDict]
  · intro body
    simp [try_alternative_forms_endpoint]

/-- Witness for claim C7: a 500 response, a bare-string body, and a 404
on the alternative endpoint each yield the empty list. -/
theorem claim_C7_witness :
    (get_form_templates (ReqOutcome.resp 500 PyVal.none) = []
      ∧ try_alternative_forms_endpoint (ReqOutcome.resp 500 PyVal.none) = [])
    ∧ (get_form_templates (ReqOutcome.resp 200 (PyVal.str "oops")) = []
      ∧ try_alternative_forms_endpoint (ReqOutcome.resp 200 (PyVal.str "oops")) = [])
    ∧ try_alternative_forms_endpoint (ReqOutcome.resp 404 (PyVal.dict [])) = [] :=
  ⟨claim_C7.2.1 500 PyVal.none (by norm_num) (by norm_num),
    claim_C7.2.2.1 200 (PyVal.str "oops") rfl rfl,
    claim_C7.2.2.2 (PyVal.dict [])⟩

/-- Claim C8 fails as stated: a 200 response whose JSON body lacks the
"access_token" key makes `token_data["access_token"]` raise; the except
clause returns False with the token state unchanged, although the token
endpoint did respond 200.  The same holds for exchange_code_for_token. -/
theorem claim_C8_counterexample :
    authenticate_client_credentials ⟨PyVal.none, PyVal.none⟩
        (ReqOutcome.resp 200 (PyVal.dict [])) =
      (false, ⟨PyVal.none, PyVal.none⟩)
    ∧ exchange_code_for_token ⟨PyVal.none, PyVal.none⟩
        (ReqOutcome.resp 200 (PyVal.dict [])) =
      (false, ⟨PyVal.none, PyVal.none⟩) :=
  ⟨rfl, rfl⟩

/-- Claim C8 as amended: authenticate_client_credentials returns True and
stores the access token exactly when the token endpoint responds 200 with
a JSON body containing "access_token"; on a transport error, a non-200
status, or a 200 body without that key it returns False with the state
unchanged, never raising.  exchange_code_for_token behaves the same and
on success additionally stores `token_data.get("refresh_token")` (Python
None when absent). -/
theorem claim_C8 :
    (∀ st : AuthState,
        authenticate_client_credentials st ReqOutcome.exc = (false, st)
        ∧ exchange_code_for_token st ReqOutcome.exc = (false, st))
    ∧ (∀ (st : AuthState) (s : Nat) (body : PyVal), s ≠ 200 →
        authenticate_client_credentials st (ReqOutcome.resp s body) = (false, st)
        ∧ exchange_code_for_token st (ReqOutcome.resp s body) = (false, st))
    ∧ (∀ (st : AuthState) (body : PyVal),
        pyIndex body "access_token" = Option.none →
        authenticate_client_credentials st (ReqOutcome.resp 200 body) = (false, st)
        ∧ exchange_code_for_token st (ReqOutcome.resp 200 body) = (false, st))
    ∧ (∀ (st : AuthState) (body : PyVal) (tok : PyVal),
        pyIndex body "access_token" = some tok →
        authenticate_client_credentials st (ReqOutcome.resp 200 body) =
          (true, ⟨tok, st.refresh_token⟩)
        ∧ exchange_code_for_token st (ReqOutcome.resp 200 body) =
          (true, ⟨tok, pyGetD body "refresh_token" PyVal.none⟩)) := by
  refine ⟨fun st => ⟨rfl, rfl⟩, ?_, ?_, ?_⟩
  · intro st s body h
    constructor <;>
      simp [authenticate_client_credentials, exchange_code_for_token, h]
  · intro st body h
    constructor <;>
      simp [authenticate_client_credentials, exchange_code_for_token, h]
  · intro st body tok h
    constructor <;>
      simp [authenticate_client_credentials, exchange_code_for_token, h]

/-- Witness for claim C8: a 200 body with both tokens stores them and
returns True; a 401 returns False with the state unchanged. -/
theorem claim_C8_witness :
    authenticate_client_credentials ⟨PyVal.none, PyVal.none⟩
        (ReqOutcome.resp 200 (PyVal.dict [("access_token", PyVal.str "T")])) =
      (true, ⟨PyVal.str "T", PyVal.none⟩)
    ∧ exchange_code_for_token ⟨PyVal.none, PyVal.none⟩
        (ReqOutcome.resp 200 (PyVal.dict
          [("access_token", PyVal.str "T"), ("refresh_token", PyVal.str "R")])) =
      (true, ⟨PyVal.str "T", PyVal.str "R"⟩)
    ∧ authenticate_client_credentials ⟨PyVal.none, PyVal.none⟩
        (ReqOutcome.resp 401 PyVal.none) = (false, ⟨PyVal.none, PyVal.none⟩) :=
  ⟨(claim_C8.2.2.2 ⟨PyVal.none, PyVal.none⟩
      (PyVal.dict [("access_token", PyVal.str "T")]) (PyVal.str "T") rfl).1,
    (claim_C8.2.2.2 ⟨PyVal.none, PyVal.none⟩
      (PyVal.dict [("access_token", PyVal.str "T"), ("refresh_token", PyVal.str "R")])
      (PyVal.str "T") rfl).2,
    (claim_C8.2.1 ⟨PyVal.none, PyVal.none⟩ 401 PyVal.none (by norm_num)).1⟩

/-- Claim C5: in the per-template path every result form is the stamp of
a fetched form with the template that produced it, and for dict forms the
stamped template_name / template_type / template_id equal the fields of
that template (with the source defaults); in the alternative path the metadata
comes from the first template matching the nested formTemplate identifier,
and unmatched forms get the placeholders "Unknown Template" and
"unknown". -/
theorem claim_C5 :
    (∀ (templates : List PyVal) (fetch : PyVal → List PyVal) (alt : List PyVal),
        (perTemplateForms templates fetch).isEmpty = false →
        (get_all_forms templates fetch alt).1 = perTemplateForms templates fetch)
    ∧ (∀ (templates : List PyVal) (fetch : PyVal → List PyVal) (alt : List PyVal),
        templates.isEmpty = false →
        (perTemplateForms templates fetch).isEmpty = true →
        (get_all_forms templates fetch alt).1 = alt.map (altStampForm templates))
    ∧ (∀ (templates : List PyVal) (fetch : PyVal → List PyVal) (f : PyVal),
        f ∈ perTemplateForms templates fetch →
        ∃ t, t ∈ templates ∧ t.isDict = true
          ∧ truthy (pyGetD t "id" PyVal.none) = true
          ∧ ∃ g, g ∈ fetch (pyGetD t "id" PyVal.none) ∧ f = stampForm t g)
    ∧ (∀ t g : PyVal, g.isDict = true →
        pyGetD (stampForm t g) "template_name" PyVal.none
            = pyGetD t "name" (PyVal.str "Unnamed Template")
        ∧ pyGetD (stampForm t g) "template_type" PyVal.none
            = pyGetD t "templateType" (PyVal.str "unknown")
        ∧ pyGetD (stampForm t g) "template_id" PyVal.none
            = pyGetD t "id" PyVal.none)
    ∧ (∀ (templates : List PyVal) (form ti : PyVal), form.isDict = true →
        templates.find? (altMatch form) = some ti →
        pyGetD (altStampForm templates form) "template_name" PyVal.none
            = pyGetD ti "name" (PyVal.str "Unknown Template")
        ∧ pyGetD (altStampForm templates form) "template_type" PyVal.none
            = pyGetD ti "templateType" (PyVal.str "unknown")
        ∧ pyGetD (altStampForm templates form) "template_id" PyVal.none
            = pyGetD ti "id" PyVal.none)
    ∧ (∀ (templates : List PyVal) (form : PyVal), form.isDict = true →
        templates.find? (altMatch form) = Option.none →
        pyGetD (altStampForm templates form) "template_name" PyVal.none
            = PyVal.str "Unknown Template"
        ∧ pyGetD (altStampForm templates form) "template_type" PyVal.none
            = PyVal.str "unknown"
        ∧ pyGetD (altStampForm templates form) "template_id" PyVal.none
            = altFormTemplateId form) := by
  refine ⟨?_, ?_, ?_, ?_, ?_, ?_⟩
  · intro templates fetch alt h
    cases hT : templates.isEmpty
    case true =>
      have h0 : templates = [] := List.isEmpty_iff.mp hT
      subst h0
      simp [perTemplateForms] at h
    case false =>
      simp [get_all_forms, hT, h]
  · intro templates fetch alt hT h
    simp [get_all_forms, hT, h]
  · intro templates fetch f hf
    unfold perTemplateForms at hf
    rw [List.mem_flatten] at hf
    obtain ⟨l, hl, hfl⟩ := hf
    rw [List.mem_map] at hl
    obtain ⟨t, ht, rfl⟩ := hl
    unfold processTemplate at hfl
    by_cases h1 : t.isDict = false
    · rw [if_pos h1] at hfl
      exact absurd hfl (List.not_mem_nil f)
    · rw [if_neg h1] at hfl
      by_cases h2 : truthy (pyGetD t "id" PyVal.none) = false
      · rw [if_pos h2] at hfl
        exact absurd hfl (List.not_mem_nil f)
      · rw [if_neg h2] at hfl
        rw [List.mem_map] at hfl
        obtain ⟨g, hg, rfl⟩ := hfl
        exact ⟨t, ht, eq_true_of_ne_false h1,
          eq_true_of_ne_false h2, g, hg, rfl⟩
  · intro t g hg
    cases g
    case dict es =>
      exact lookup_stamp es (pyGetD t "name" (PyVal.str "Unnamed Template"))
        (pyGetD t "templateType" (PyVal.str "unknown"))
        (pyGetD t "id" PyVal.none)
    all_goals simp [PyVal.isDict] at hg
  · intro templates form ti hform hfind
    cases form
    case dict es =>
      have hred : altStampForm templates (PyVal.dict es) =
          pySet (pySet (pySet (PyVal.dict es)
            "template_name" (pyGetD ti "name" (PyVal.str "Unknown Template")))
            "template_type" (pyGetD ti "templateType" (PyVal.str "unknown")))
            "template_id" (pyGetD ti "id" PyVal.none) := by
        unfold altStampForm
        rw [hfind]
        rfl
      rw [hred]
      exact lookup_stamp es (pyGetD ti "name" (PyVal.str "Unknown Template"))
        (pyGetD ti "templateType" (PyVal.str "unknown"))
        (pyGetD ti "id" PyVal.none)
    all_goals simp [PyVal.isDict] at hform
  · intro templates form hform hfind
    cases form
    case dict es =>
      have hred : altStampForm templates (PyVal.dict es) =
          pySet (pySet (pySet (PyVal.dict es)
            "template_name" (PyVal.str "Unknown Template"))
            "template_type" (PyVal.str "unknown"))
            "template_id" (altFormTemplateId (PyVal.dict es)) := by
        unfold altStampForm
        rw [hfind]
        rfl
      rw [hred]
      exact lookup_stamp es (PyVal.str "Unknown Template")
        (PyVal.str "unknown") (altFormTemplateId (PyVal.dict es))
    all_goals simp [PyVal.isDict] at hform

/-- Witness for claim C5: a concrete template stamps its name, type and
id onto a fetched form, and with no templates to match, the alternative
path stamps the placeholder metadata. -/
theorem claim_C5_witness :
    (pyGetD (stampForm
        (PyVal.dict [("id", PyVal.str "t1"), ("name", PyVal.str "Checklist"),
          ("templateType", PyVal.str "pq")])
        (PyVal.dict [("id", PyVal.str "f1")])) "template_name" PyVal.none
      = pyGetD (PyVal.dict [("id", PyVal.str "t1"), ("name", PyVal.str "Checklist"),
          ("templateType", PyVal.str "pq")]) "name" (PyVal.str "Unnamed Template")
      ∧ pyGetD (stampForm
        (PyVal.dict [("id", PyVal.str "t1"), ("name", PyVal.str "Checklist"),
          ("templateType", PyVal.str "pq")])
        (PyVal.dict [("id", PyVal.str "f1")])) "template_type" PyVal.none
      = pyGetD (PyVal.dict [("id", PyVal.str "t1"), ("name", PyVal.str "Checklist"),
          ("templateType", PyVal.str "pq")]) "templateType" (PyVal.str "unknown")
      ∧ pyGetD (stampForm
        (PyVal.dict [("id", PyVal.str "t1"), ("name", PyVal.str "Checklist"),
          ("templateType", PyVal.str "pq")])
        (PyVal.dict [("id", PyVal.str "f1")])) "template_id" PyVal.none
      = pyGetD (PyVal.dict [("id", PyVal.str "t1"), ("name", PyVal.str "Checklist"),
          ("templateType", PyVal.str "pq")]) "id" PyVal.none)
    ∧ (pyGetD (altStampForm [] (PyVal.dict [("id", PyVal.str "f2")]))
          "template_name" PyVal.none = PyVal.str "Unknown Template"
      ∧ pyGetD (altStampForm [] (PyVal.dict [("id", PyVal.str "f2")]))
          "template_type" PyVal.none = PyVal.str "unknown"
      ∧ pyGetD (altStampForm [] (PyVal.dict [("id", PyVal.str "f2")]))
          "template_id" PyVal.none
        = altFormTemplateId (PyVal.dict [("id", PyVal.str "f2")])) :=
  ⟨claim_C5.2.2.2.1
      (PyVal.dict [("id", PyVal.str "t1"), ("name", PyVal.str "Checklist"),
        ("templateType", PyVal.str "pq")])
      (PyVal.dict [("id", PyVal.str "f1")]) rfl,
    claim_C5.2.2.2.2.2 [] (PyVal.dict [("id", PyVal.str "f2")]) rfl rfl⟩

theorem tableRows_list (L : List PyVal) :
    tableRows (PyVal.list L) = (L.map cellCount).sum := by
  cases L with
  | nil => rfl
  | cons a t => rfl

theorem tableRows_mk (rows : List (List (String × PyVal))) :
    tableRows (PyVal.list (rows.map PyVal.dict)) = (rows.map List.length).sum := by
  rw [tableRows_list, List.map_map]
  rfl

theorem sum_tableRows (tables : List (String × List (List (String × PyVal)))) :
    ((tables.map fun t => (t.1, PyVal.list (t.2.map PyVal.dict))).map
        (fun e => tableRows e.2)).sum =
      (tables.map fun t => (t.2.map List.length).sum).sum := by
  induction tables with
  | nil => rfl
  | cons t rest ih =>
    simp only [List.map_cons, List.sum_cons, ih, tableRows_mk]

theorem formRows_mkForm (cvs : List (List (String × PyVal)))
    (tables : List (String × List (List (String × PyVal))))
    (hok : ∀ f ∈ cvs, fieldAborts (PyVal.dict f) = false) :
    formRows (mkForm cvs tables) =
      some (cvs.length + (tables.map fun t => (t.2.map List.length).sum).sum) := by
  have h1 : pyGetD (mkForm cvs tables) "customValues" (PyVal.list [])
      = PyVal.list (cvs.map PyVal.dict) := rfl
  have h2 : pyGetD (mkForm cvs tables) "tabularValues" (PyVal.dict [])
      = PyVal.dict (tables.map fun t => (t.1, PyVal.list (t.2.map PyVal.dict))) := rfl
  have h3 : (mkForm cvs tables).isDict = true := rfl
  have hno : (cvs.map PyVal.dict).any fieldAborts = false := by
    rw [List.any_eq_false]
    intro f hf
    rw [List.mem_map] at hf
    obtain ⟨c, hcm, rfl⟩ := hf
    simp [hok c hcm]
  have hc : customValueRows (PyVal.list (cvs.map PyVal.dict)) = some cvs.length := by
    have hfil : (cvs.map PyVal.dict).filter (fun f => f.isDict) = cvs.map PyVal.dict :=
      List.filter_eq_self.mpr (by
        intro a ha
        rw [List.mem_map] at ha
        obtain ⟨c, _, rfl⟩ := ha
        rfl)
    simp [customValueRows, hno, hfil]
  have ht : tabularValueRows (PyVal.dict
      (tables.map fun t => (t.1, PyVal.list (t.2.map PyVal.dict)))) =
      some ((tables.map fun t => (t.2.map List.length).sum).sum) := by
    simp only [tabularValueRows]
    rw [sum_tableRows]
  unfold formRows
  rw [h1, h2, h3, hc, ht]
  simp

/-- Claim C3 fails as stated: a custom field dict whose valueName is a
truthy list makes the membership test `value_name in field` of app.py
line 358 raise TypeError (lists are unhashable), and the except clause
at app.py line 422 aborts the whole export; the form below has exactly
one custom field occurrence and no tabular cells, yet the export emits
no rows at all instead of one row. -/
theorem claim_C3_counterexample :
    export_csv_rows [mkForm [[("valueName", PyVal.list [PyVal.none])]] []] =
      Option.none
    ∧ export_csv_rows [mkForm [[("valueName", PyVal.list [PyVal.none])]] []] ≠
      some 1 :=
  ⟨rfl, by decide⟩

/-- Claim C3 as amended: for every list of forms built from custom field
dicts none of which carries a truthy unhashable (list or dict) valueName,
and from tables of dict rows, the csv export writes exactly one data row
per custom field occurrence plus one per tabular cell occurrence, never a
row per form: a fieldless form contributes zero rows, and the form with 2
custom fields and one 2 by 2 table yields exactly 2 + 4 = 6 rows. -/
theorem claim_C3 :
    (∀ specs : List (List (List (String × PyVal)) ×
        List (String × List (List (String × PyVal)))),
      (∀ sp ∈ specs, ∀ f ∈ sp.1, fieldAborts (PyVal.dict f) = false) →
      export_csv_rows (specs.map fun sp => mkForm sp.1 sp.2) =
        some ((specs.map fun sp => sp.1.length +
          (sp.2.map fun t => (t.2.map List.length).sum).sum).sum))
    ∧ export_csv_rows [mkForm [] []] = some 0
    ∧ export_csv_rows [mkForm
        [[("itemLabel", PyVal.str "A"), ("textVal", PyVal.str "x")],
         [("itemLabel", PyVal.str "B"), ("textVal", PyVal.str "y")]]
        [("T", [[("c1", PyVal.num 1), ("c2", PyVal.num 2)],
                [("c1", PyVal.num 3), ("c2", PyVal.num 4)]])]] = some 6 := by
  refine ⟨?_, rfl, rfl⟩
  intro specs
  induction specs with
  | nil =>
    intro hok
    rfl
  | cons sp rest ih =>
    intro hok
    have hx1 : ∀ f ∈ sp.1, fieldAborts (PyVal.dict f) = false :=
      hok sp (List.mem_cons_self sp rest)
    have hx2 : ∀ x ∈ rest, ∀ f ∈ x.1, fieldAborts (PyVal.dict f) = false :=
      fun x hx => hok x (List.mem_cons_of_mem _ hx)
    simp only [List.map_cons, export_csv_rows, formRows_mkForm sp.1 sp.2 hx1,
      ih hx2, List.sum_cons]

/-- Witness for claim C3: the 2-custom-fields plus 2 by 2 table form,
none of whose fields has an unhashable valueName, yields the counted
2 + 4 rows through the general theorem. -/
theorem claim_C3_witness :
    export_csv_rows ([([[("itemLabel", PyVal.str "A"), ("textVal", PyVal.str "x")],
          [("itemLabel", PyVal.str "B"), ("textVal", PyVal.str "y")]],
        [("T", [[("c1", PyVal.num 1), ("c2", PyVal.num 2)],
                [("c1", PyVal.num 3), ("c2", PyVal.num 4)]])])].map
        fun sp => mkForm sp.1 sp.2) =
      some (([([[("itemLabel", PyVal.str "A"), ("textVal", PyVal.str "x")],
          [("itemLabel", PyVal.str "B"), ("textVal", PyVal.str "y")]],
        [("T", [[("c1", PyVal.num 1), ("c2", PyVal.num 2)],
                [("c1", PyVal.num 3), ("c2", PyVal.num 4)]])])].map
        fun sp => sp.1.length +
          (sp.2.map fun t => (t.2.map List.length).sum).sum).sum) :=
  claim_C3.1 [([[("itemLabel", PyVal.str "A"), ("textVal", PyVal.str "x")],
        [("itemLabel", PyVal.str "B"), ("textVal", PyVal.str "y")]],
      [("T", [[("c1", PyVal.num 1), ("c2", PyVal.num 2)],
              [("c1", PyVal.num 3), ("c2", PyVal.num 4)]])])] (by decide)
